import Mathlib

/-!
Verification of the retry-strategy and process-engine modules
(`core/retry_strategy.py`, `core/process_engine.py`).

Conventions of the shallow embedding:
* Python `float` values are modelled as `ℚ`.
* A Python exception (an `Exception` instance) is modelled by `PyError`,
  carrying its `str(e)` text and flags for the classes the code tests
  with `isinstance`.
* A Python callable that may raise is modelled as a function into
  `Except`; `random.random()` draws and wall-clock elapsed times are
  passed in explicitly as streams indexed by attempt number.
* Wall-clock-only fields (`start_time`, `end_time`, `total_duration`,
  attempt `metadata`) are omitted: no retry-control decision in the
  source reads them back.
-/

namespace RetryStrategy

/-- Model of a raised Python `Exception` value: its `str(e)` text and the
class-membership flags that `retry_strategy.py` inspects via `isinstance`. -/
structure PyError where
  msg : String
  isKeyboardInterrupt : Bool := false
  isSystemExit : Bool := false
  isMemoryError : Bool := false
deriving DecidableEq, Repr

/-- `RetryPolicy` enum from `retry_strategy.py`. -/
inductive RetryPolicy where
  | FIXED_DELAY
  | EXPONENTIAL_BACKOFF
  | LINEAR_BACKOFF
  | RANDOM_JITTER
  | CUSTOM
deriving DecidableEq, Repr

/-- `RetryResult` enum from `retry_strategy.py`. -/
inductive RetryResult where
  | SUCCESS
  | FAILED_ALL_ATTEMPTS
  | ABORTED
  | TIMEOUT
deriving DecidableEq, Repr

/-- `RetryConfiguration` dataclass. `timeout` is `Optional[float]`;
`custom_delay_func` takes the 1-based attempt number and the last error
and either returns a delay or raises. -/
structure RetryConfiguration where
  max_attempts : Nat := 3
  policy : RetryPolicy := .EXPONENTIAL_BACKOFF
  base_delay : ℚ := 1
  max_delay : ℚ := 60
  backoff_multiplier : ℚ := 2
  jitter_factor : ℚ := 1/10
  timeout : Option ℚ := none
  custom_delay_func : Option (Nat → Option PyError → Except Unit ℚ) := none

/-- The checks `RetryConfiguration.__post_init__` performs; a configuration
object only exists in Python when these hold (`max_attempts ≥ 1`,
`base_delay ≥ 0`, `max_delay ≥ base_delay`). -/
def RetryConfiguration.validCtor (c : RetryConfiguration) : Prop :=
  1 ≤ c.max_attempts ∧ 0 ≤ c.base_delay ∧ c.base_delay ≤ c.max_delay

instance (c : RetryConfiguration) : Decidable c.validCtor := by
  unfold RetryConfiguration.validCtor; infer_instance

/-- `RetryAttempt` record (decision-relevant fields). -/
structure RetryAttempt where
  attempt_number : Nat
  success : Bool := false
  error : Option String := none
  delay_before : ℚ := 0
deriving DecidableEq, Repr

/-- `RetryExecutionResult` (decision-relevant fields). -/
structure RetryExecutionResult (T : Type) where
  result : RetryResult
  value : Option T := none
  attempts : List RetryAttempt := []
  final_error : Option String := none

/-- The `success` property: `result == RetryResult.SUCCESS`. -/
def RetryExecutionResult.success {T : Type} (r : RetryExecutionResult T) : Bool :=
  decide (r.result = RetryResult.SUCCESS)

/-- Python's builtin `min` on two floats: the first argument when the two
compare equal. -/
def pymin (a b : ℚ) : ℚ := if a ≤ b then a else b

/-- Python's builtin `max` on two floats: the first argument when the two
compare equal. -/
def pymax (a b : ℚ) : ℚ := if b ≤ a then a else b

/-- The `try: return custom_delay_func(...) except: return base_delay`
block of the CUSTOM branch of `calculate_delay`. -/
def customDelay (f : Nat → Option PyError → Except Unit ℚ)
    (attempt_number : Nat) (last_error : Option PyError) (base_delay : ℚ) : ℚ :=
  match f attempt_number last_error with
  | .ok v => v
  | .error _ => base_delay

/-- The `delay` value the `if`/`elif` chain of `calculate_delay` assigns
(the part after the CUSTOM early return; the final `else` is the
fixed-delay default).  `r` is the value the `random.random()` call in the
RANDOM_JITTER branch returns. -/
def policyDelay (attempt_number : Nat) (config : RetryConfiguration)
    (r : ℚ) : ℚ :=
  if config.policy = .FIXED_DELAY then
    config.base_delay
  else if config.policy = .EXPONENTIAL_BACKOFF then
    config.base_delay * config.backoff_multiplier ^ (attempt_number - 1)
  else if config.policy = .LINEAR_BACKOFF then
    config.base_delay * (attempt_number : ℚ)
  else if config.policy = .RANDOM_JITTER then
    let base := config.base_delay * config.backoff_multiplier ^ (attempt_number - 1)
    let jitter := base * config.jitter_factor * (2 * r - 1)
    base + jitter
  else
    config.base_delay

/-- `DelayCalculator.calculate_delay`.  The guard
`config.policy == RetryPolicy.CUSTOM and config.custom_delay_func`
returns the custom function's value (or its `base_delay` fallback)
directly — before the `min`/`max` clamps at the end of the function.
Every other path is clamped to `[0, max_delay]`. -/
def calculate_delay (attempt_number : Nat) (config : RetryConfiguration)
    (last_error : Option PyError) (r : ℚ) : ℚ :=
  match config.custom_delay_func with
  | some f =>
      if config.policy = .CUSTOM then
        customDelay f attempt_number last_error config.base_delay
      else
        pymax 0 (pymin (policyDelay attempt_number config r) config.max_delay)
  | none =>
      pymax 0 (pymin (policyDelay attempt_number config r) config.max_delay)

/-- `RetryConditionChecker.should_retry`.  The optional `error_checker`
may raise, in which case the function returns `false`. -/
def should_retry (attempt_number : Nat) (config : RetryConfiguration)
    (error : PyError)
    (error_checker : Option (PyError → Except Unit Bool)) : Bool :=
  if config.max_attempts ≤ attempt_number then
    false
  else
    match error_checker with
    | some ck =>
        match ck error with
        | .ok b => b
        | .error _ => false
    | none =>
        !(error.isKeyboardInterrupt || error.isSystemExit || error.isMemoryError)

/-- String rendering of a rational, standing in for Python's rendering of
the float in the timeout message. -/
def ratText (q : ℚ) : String :=
  toString q.num ++ "/" ++ toString q.den

/-- Text of the timeout `final_error` (an f-string in the source). -/
def timeoutMsg (t : Option ℚ) : String :=
  match t with
  | none => ""
  | some q => "タイムアウト（" ++ ratText q ++ "秒）"

/-- Text of the `final_error` of a `FAILED_ALL_ATTEMPTS` result:
`str(last_error) if last_error else "不明なエラー"`. -/
def finalErrMsg (last_error : Option PyError) : String :=
  match last_error with
  | some e => e.msg
  | none => "不明なエラー"

/-- `if abort_checker and abort_checker():` — `None` counts as no abort;
a raising checker propagates (to the outer `except` of the loop). -/
def abortSignal (abort_checker : Option (Nat → Except PyError Bool))
    (boundary : Nat) : Except PyError Bool :=
  match abort_checker with
  | none => .ok false
  | some ck => ck boundary

/-- The overall-deadline test: `if config.timeout:` (Python float
truthiness, so `0.0` disables the check) followed by
`elapsed >= config.timeout`. -/
def timeoutExpired (config : RetryConfiguration) (elapsed : ℚ) : Bool :=
  match config.timeout with
  | none => false
  | some t => decide (t ≠ 0) && decide (t ≤ elapsed)

/-- The `for attempt_num in range(1, max_attempts + 1)` loop body of
`RetryExecutor.execute_with_retry`, written as structural recursion on the
number of remaining iterations.  `operation n` is the outcome of calling
the operation during attempt `n`; `abort_checker n` the outcome of the
abort poll at the boundary before attempt `n`; `elapsed n` the wall-clock
seconds elapsed at that boundary; `rand n` the `random.random()` draw the
delay calculation before attempt `n` would consume.  An exception raised
by the abort checker is the one modelled event the outer
`except Exception` of the source catches ("予期しないエラー"). -/
def retryLoop {T : Type} (operation : Nat → Except PyError T)
    (config : RetryConfiguration)
    (error_checker : Option (PyError → Except Unit Bool))
    (abort_checker : Option (Nat → Except PyError Bool))
    (elapsed : Nat → ℚ) (rand : Nat → ℚ) :
    Nat → Nat → List RetryAttempt → Option PyError → RetryExecutionResult T
  | 0, _, attempts, last_error =>
      { result := .FAILED_ALL_ATTEMPTS, attempts := attempts,
        final_error := some (finalErrMsg last_error) }
  | remaining + 1, attempt_num, attempts, last_error =>
      match abortSignal abort_checker attempt_num with
      | .error e =>
          { result := .FAILED_ALL_ATTEMPTS, attempts := attempts,
            final_error := some ("予期しないエラー: " ++ e.msg) }
      | .ok true =>
          { result := .ABORTED, attempts := attempts,
            final_error := some "実行が中断されました" }
      | .ok false =>
          if timeoutExpired config (elapsed attempt_num) then
            { result := .TIMEOUT, attempts := attempts,
              final_error := some (timeoutMsg config.timeout) }
          else
            let delay : ℚ :=
              if 1 < attempt_num then
                calculate_delay (attempt_num - 1) config last_error (rand attempt_num)
              else 0
            match operation attempt_num with
            | .ok v =>
                { result := .SUCCESS, value := some v,
                  attempts := attempts ++
                    [{ attempt_number := attempt_num, success := true,
                       delay_before := delay }] }
            | .error e =>
                let attempts' := attempts ++
                  [{ attempt_number := attempt_num, success := false,
                     error := some e.msg, delay_before := delay }]
                if attempt_num < config.max_attempts ∧
                    should_retry attempt_num config e error_checker = false then
                  { result := .FAILED_ALL_ATTEMPTS, attempts := attempts',
                    final_error := some (finalErrMsg (some e)) }
                else
                  retryLoop operation config error_checker abort_checker
                    elapsed rand remaining (attempt_num + 1) attempts' (some e)

/-- `RetryExecutor.execute_with_retry` (async variant). -/
def execute_with_retry {T : Type} (operation : Nat → Except PyError T)
    (config : RetryConfiguration)
    (error_checker : Option (PyError → Except Unit Bool))
    (abort_checker : Option (Nat → Except PyError Bool))
    (elapsed : Nat → ℚ) (rand : Nat → ℚ) : RetryExecutionResult T :=
  retryLoop operation config error_checker abort_checker elapsed rand
    config.max_attempts 1 [] none

/-- Loop body of `RetryExecutor.execute_with_retry_sync`.  The sync
variant's signature has no `abort_checker` parameter; apart from the
missing abort poll (and `time.sleep` in place of `asyncio.sleep`) its body
is line-for-line the async body. -/
def retryLoopSync {T : Type} (operation : Nat → Except PyError T)
    (config : RetryConfiguration)
    (error_checker : Option (PyError → Except Unit Bool))
    (elapsed : Nat → ℚ) (rand : Nat → ℚ) :
    Nat → Nat → List RetryAttempt → Option PyError → RetryExecutionResult T
  | 0, _, attempts, last_error =>
      { result := .FAILED_ALL_ATTEMPTS, attempts := attempts,
        final_error := some (finalErrMsg last_error) }
  | remaining + 1, attempt_num, attempts, last_error =>
      if timeoutExpired config (elapsed attempt_num) then
        { result := .TIMEOUT, attempts := attempts,
          final_error := some (timeoutMsg config.timeout) }
      else
        let delay : ℚ :=
          if 1 < attempt_num then
            calculate_delay (attempt_num - 1) config last_error (rand attempt_num)
          else 0
        match operation attempt_num with
        | .ok v =>
            { result := .SUCCESS, value := some v,
              attempts := attempts ++
                [{ attempt_number := attempt_num, success := true,
                   delay_before := delay }] }
        | .error e =>
            let attempts' := attempts ++
              [{ attempt_number := attempt_num, success := false,
                 error := some e.msg, delay_before := delay }]
            if attempt_num < config.max_attempts ∧
                should_retry attempt_num config e error_checker = false then
              { result := .FAILED_ALL_ATTEMPTS, attempts := attempts',
                final_error := some (finalErrMsg (some e)) }
            else
              retryLoopSync operation config error_checker elapsed rand
                remaining (attempt_num + 1) attempts' (some e)

/-- `RetryExecutor.execute_with_retry_sync`. -/
def execute_with_retry_sync {T : Type} (operation : Nat → Except PyError T)
    (config : RetryConfiguration)
    (error_checker : Option (PyError → Except Unit Bool))
    (elapsed : Nat → ℚ) (rand : Nat → ℚ) : RetryExecutionResult T :=
  retryLoopSync operation config error_checker elapsed rand
    config.max_attempts 1 [] none

/-- A CUSTOM-policy configuration whose delay function returns 61 while
`max_delay` is 60; it passes `__post_init__`. -/
def customOverCfg : RetryConfiguration :=
  { policy := .CUSTOM, custom_delay_func := some fun _ _ => .ok 61,
    base_delay := 1, max_delay := 60 }

/-- A CUSTOM-policy configuration whose delay function returns -1;
it passes `__post_init__`. -/
def customNegCfg : RetryConfiguration :=
  { policy := .CUSTOM, custom_delay_func := some fun _ _ => .ok (-1),
    base_delay := 1, max_delay := 60 }

/-- An EXPONENTIAL_BACKOFF configuration with a negative multiplier;
`__post_init__` does not constrain `backoff_multiplier`, so it passes
construction-time validation. -/
def expBackNegCfg : RetryConfiguration :=
  { policy := .EXPONENTIAL_BACKOFF, base_delay := 1, max_delay := 60,
    backoff_multiplier := -1 }

/-- A CUSTOM-policy configuration whose delay function always raises. -/
def customRaiseCfg : RetryConfiguration :=
  { policy := .CUSTOM, custom_delay_func := some fun _ _ => .error (),
    base_delay := 2, max_delay := 60 }

/-- A validated configuration with `timeout = 0`; its elapsed time is
always past any positive deadline, so only truthiness protects it. -/
def zeroTimeoutCfg : RetryConfiguration :=
  { max_attempts := 2, policy := .FIXED_DELAY, base_delay := 0,
    max_delay := 0, timeout := some 0 }

/-- The always-failing operation used in concrete executor runs. -/
def opAlwaysFail : Nat → Except PyError Unit := fun _ => .error { msg := "boom" }

/-- A configuration for the abort-boundary witness: three attempts,
fixed zero delay, a one-second deadline. -/
def abortWitCfg : RetryConfiguration :=
  { max_attempts := 3, policy := .FIXED_DELAY, base_delay := 0,
    max_delay := 0, timeout := some 1 }

/-- Abort checker that fires from boundary 2 on. -/
def abortFromTwo : Nat → Except PyError Bool := fun n => .ok (decide (2 ≤ n))

/-- Elapsed clock that is within the deadline at boundary 1 but far past
it at boundary 2 — the abort must still win at boundary 2. -/
def elapsedLateTwo : Nat → ℚ := fun n => if n = 1 then 0 else 100

end RetryStrategy

namespace ProcessEngine

/-- `ProcessState` enum from `process_engine.py`. -/
inductive ProcessState where
  | PENDING
  | RUNNING
  | COMPLETED
  | FAILED
  | TERMINATED
deriving DecidableEq, Repr

/-- `ProcessRequest` (fields the control flow reads). -/
structure ProcessRequest where
  command : List String
  working_directory : Option String := none
  environment : Option (List (String × String)) := none
  timeout : Option ℚ := none

/-- `ProcessResult` (decision-relevant fields; `start_time`/`end_time`
are wall-clock only).  Metadata is the dict the source builds, as a
key/value list with `None`-able values. -/
structure ProcessResult where
  session_id : String
  state : ProcessState
  return_code : Option Int
  stdout : String
  stderr : String
  metadata : List (String × Option String) := []

/-- Behaviour of one run of `ProcessTerminator.terminate_gracefully`:
the observable outcome of each step it may take.  `terminateRaises` /
`killRaises` hold the text of an exception raised by `process.terminate()`
/ `process.kill()`; `waitTermTimesOut` / `waitKillTimesOut` say whether
the corresponding `asyncio.wait_for(process.wait(), ...)` raised
`asyncio.TimeoutError`; `osKillRaises` is an exception from the OS-level
kill of step 3. -/
structure TermBehavior where
  returncode : Option Int := none
  terminateRaises : Option String := none
  waitTermTimesOut : Bool := false
  killRaises : Option String := none
  waitKillTimesOut : Bool := false
  osKillRaises : Option String := none

/-- `ProcessTerminator.terminate_gracefully`.  A `TimeoutError` from
either wait falls through to the next step; any exception from
`process.terminate()` or `process.kill()` is caught by the function's
outer `except Exception` and yields `False`; the OS-level kill of step 3
has its own bare `except` yielding `False`. -/
def terminate_gracefully (p : TermBehavior) : Bool :=
  if p.returncode.isSome then
    true
  else
    match p.terminateRaises with
    | some _ => false
    | none =>
      if !p.waitTermTimesOut then
        true
      else
        match p.killRaises with
        | some _ => false
        | none =>
          if !p.waitKillTimesOut then
            true
          else
            match p.osKillRaises with
            | some _ => false
            | none => true

/-- Outcome of the `process.wait()` / `asyncio.wait_for(process.wait())`
step of `AsyncProcessEngine.execute_process`: it completes, it raises
`asyncio.TimeoutError` (only possible when `request.timeout` is truthy),
or it raises some other exception. -/
inductive WaitOutcome where
  | completes
  | timesOut
  | raises (e : String)
deriving DecidableEq, Repr

/-- Behaviour of one run of `AsyncProcessEngine.execute_process`:
the outcome of each awaited step.  `spawnResult` is `_start_process`
(spawn succeeds or raises); `startMonitoringRaises` an exception from a
monitor's `start_monitoring`; `outputs` the `(stdout, stderr)` pair the
bare-`except`-guarded read block produces; `finalReturncode` the value of
`process.returncode` when the result is built.  `stop_monitoring` only
cancels and gathers with `return_exceptions=True`, so it is modelled as
non-raising. -/
structure ProcBehavior where
  sessionId : String
  spawnResult : Except String Unit
  startMonitoringRaises : Option String := none
  waitOutcome : WaitOutcome := .completes
  outputs : String × String := ("", "")
  finalReturncode : Option Int := none

/-- The `ProcessResult` built by the `except Exception` handler of
`execute_process`. -/
def failedExcResult (sid : String) (e : String) : ProcessResult :=
  { session_id := sid, state := .FAILED, return_code := none,
    stdout := "", stderr := e, metadata := [("exception", some e)] }

/-- `AsyncProcessEngine.execute_process`.  The whole body sits in a
`try` whose `except Exception` converts any raise into a `FAILED`
result; an `asyncio.TimeoutError` from the wait is caught separately and
leads to `terminate_gracefully` (whose own exceptions never escape)
before the normal result is built from `process.returncode`. -/
def execute_process (request : ProcessRequest) (beh : ProcBehavior) :
    ProcessResult :=
  match beh.spawnResult with
  | .error e => failedExcResult beh.sessionId e
  | .ok _ =>
    match beh.startMonitoringRaises with
    | some e => failedExcResult beh.sessionId e
    | none =>
      match beh.waitOutcome with
      | .raises e => failedExcResult beh.sessionId e
      | _ =>
          { session_id := beh.sessionId,
            state := if beh.finalReturncode = some 0 then
                ProcessState.COMPLETED else ProcessState.FAILED,
            return_code := beh.finalReturncode,
            stdout := beh.outputs.1, stderr := beh.outputs.2,
            metadata :=
              [("command", some (String.intercalate " " request.command)),
               ("working_directory", request.working_directory)] }

/-- A process whose `terminate()` call raises (e.g. the process vanished
between the `returncode` check and the signal) while the OS-level kill of
step 3 would not fail. -/
def termRaiseBehavior : TermBehavior :=
  { returncode := none, terminateRaises := some "No such process" }

/-- A process that ignores both signals (the waits time out) and whose
OS-level kill raises. -/
def osKillFailBehavior : TermBehavior :=
  { returncode := none, waitTermTimesOut := true,
    waitKillTimesOut := true, osKillRaises := some "kill err" }

/-- A process whose `terminate()` succeeds but is ignored (the graceful
wait times out) and whose `kill()` call then raises. -/
def killRaiseBehavior : TermBehavior :=
  { returncode := none, terminateRaises := none, waitTermTimesOut := true,
    killRaises := some "No such process" }

/-- Request and behaviors exercising each raise point of
`execute_process`. -/
def witRequest : ProcessRequest := { command := ["ffmpeg", "-i", "src"] }

/-- Behavior where spawning raises. -/
def spawnFailBeh : ProcBehavior :=
  { sessionId := "proc_1", spawnResult := .error "spawn failed" }

/-- Behavior where a monitor's `start_monitoring` raises. -/
def monitorFailBeh : ProcBehavior :=
  { sessionId := "proc_2", spawnResult := .ok (),
    startMonitoringRaises := some "monitor failed" }

/-- Behavior where the wait raises a non-timeout exception. -/
def waitFailBeh : ProcBehavior :=
  { sessionId := "proc_3", spawnResult := .ok (),
    waitOutcome := .raises "wait failed" }

end ProcessEngine

namespace RetryStrategy

theorem pymin_eq_min (a b : ℚ) : pymin a b = min a b := by
  simp [pymin, min_def]

theorem pymax_eq_max (a b : ℚ) : pymax a b = max a b := by
  unfold pymax
  rcases le_or_lt b a with h | h
  · rw [if_pos h, max_eq_left h]
  · rw [if_neg (not_le.mpr h), max_eq_right h.le]

/-- Unfolding of `calculate_delay` outside the CUSTOM-with-function
guard. -/
theorem calculate_delay_of_not_custom (attempt_number : Nat)
    (config : RetryConfiguration) (last_error : Option PyError) (r : ℚ)
    (h : ¬ (config.policy = .CUSTOM ∧ config.custom_delay_func.isSome = true)) :
    calculate_delay attempt_number config last_error r =
      pymax 0 (pymin (policyDelay attempt_number config r) config.max_delay) := by
  cases hf : config.custom_delay_func with
  | none => simp [calculate_delay, hf]
  | some f =>
      simp only [calculate_delay, hf]
      exact if_neg fun hp => h ⟨hp, by rw [hf]; rfl⟩

/-- Unfolding of `calculate_delay` inside the CUSTOM-with-function
guard. -/
theorem calculate_delay_of_custom (attempt_number : Nat)
    (config : RetryConfiguration) (last_error : Option PyError) (r : ℚ)
    (f : Nat → Option PyError → Except Unit ℚ)
    (hf : config.custom_delay_func = some f) (hp : config.policy = .CUSTOM) :
    calculate_delay attempt_number config last_error r =
      customDelay f attempt_number last_error config.base_delay := by
  simp only [calculate_delay, hf]
  exact if_pos hp

/-- The final two lines of `calculate_delay` clamp any value into
`[0, m]` as soon as `0 ≤ m`. -/
theorem pymax_pymin_bounds (d m : ℚ) (hm : 0 ≤ m) :
    0 ≤ pymax 0 (pymin d m) ∧ pymax 0 (pymin d m) ≤ m := by
  rw [pymax_eq_max, pymin_eq_min]
  exact ⟨le_max_left _ _, max_le hm (min_le_right _ _)⟩

/-- C1 counterexample: a validated configuration with a caller-supplied
custom delay function returning 61 makes `calculate_delay` return a value
above `max_delay = 60` — the CUSTOM branch returns before the clamps. -/
theorem calculate_delay_custom_exceeds_max_delay :
    customOverCfg.validCtor ∧
    ¬ calculate_delay 1 customOverCfg none 0 ≤ customOverCfg.max_delay := by
  refine ⟨by decide, ?_⟩
  norm_num [calculate_delay, customOverCfg, customDelay]

/-- C1 (amended): for every validated configuration, every branch that
reaches the final clamps (every policy except CUSTOM-with-function)
yields a delay in `[0, max_delay]`, and the `base_delay` fallback used
when the custom function raises also lies in `[0, max_delay]`; only the
value a non-raising custom function returns is passed through
unclamped. -/
theorem calculate_delay_clamped_except_custom
    (attempt_number : Nat) (config : RetryConfiguration)
    (last_error : Option PyError) (r : ℚ)
    (hv : config.validCtor) :
    (¬ (config.policy = .CUSTOM ∧ config.custom_delay_func.isSome = true) →
      0 ≤ calculate_delay attempt_number config last_error r ∧
      calculate_delay attempt_number config last_error r ≤ config.max_delay) ∧
    (∀ f, config.custom_delay_func = some f → config.policy = .CUSTOM →
      f attempt_number last_error = .error () →
      calculate_delay attempt_number config last_error r = config.base_delay ∧
      0 ≤ config.base_delay ∧ config.base_delay ≤ config.max_delay) := by
  obtain ⟨-, hb0, hbm⟩ := hv
  have hm0 : (0 : ℚ) ≤ config.max_delay := hb0.trans hbm
  constructor
  · intro hnc
    rw [calculate_delay_of_not_custom _ _ _ _ hnc]
    exact pymax_pymin_bounds _ _ hm0
  · intro f hf hp hraise
    refine ⟨?_, hb0, hbm⟩
    rw [calculate_delay_of_custom _ _ _ _ f hf hp]
    simp [customDelay, hraise]

/-- C7 counterexample: a validated configuration with a caller-supplied
custom delay function returning -1 makes `calculate_delay` return a
negative delay — the CUSTOM branch skips the `max(0, ...)` clamp. -/
theorem calculate_delay_custom_negative :
    customNegCfg.validCtor ∧
    ¬ 0 ≤ calculate_delay 1 customNegCfg none 0 := by
  refine ⟨by decide, ?_⟩
  norm_num [calculate_delay, customNegCfg, customDelay]

/-- C7 (amended): every branch other than a non-raising custom function
returns a non-negative delay — for every policy, every attempt number and
every `random.random()` draw `r` (so RANDOM_JITTER never goes negative
even when the jitter term drives the pre-clamp value below zero), and the
`base_delay` fallback of a raising custom function is non-negative for
every validated configuration.  The value a non-raising custom function
returns is passed through unclamped. -/
theorem calculate_delay_nonneg_except_custom
    (attempt_number : Nat) (config : RetryConfiguration)
    (last_error : Option PyError) (r : ℚ) :
    (¬ (config.policy = .CUSTOM ∧ config.custom_delay_func.isSome = true) →
      0 ≤ calculate_delay attempt_number config last_error r) ∧
    (0 ≤ config.base_delay → ∀ f, config.custom_delay_func = some f →
      f attempt_number last_error = .error () →
      0 ≤ calculate_delay attempt_number config last_error r) := by
  have hclamp : ∀ d m : ℚ, 0 ≤ pymax 0 (pymin d m) := by
    intro d m
    rw [pymax_eq_max]
    exact le_max_left _ _
  constructor
  · intro hnc
    rw [calculate_delay_of_not_custom _ _ _ _ hnc]
    exact hclamp _ _
  · intro hb0 f hf hraise
    by_cases hp : config.policy = .CUSTOM
    · rw [calculate_delay_of_custom _ _ _ _ f hf hp]
      simpa [customDelay, hraise] using hb0
    · rw [calculate_delay_of_not_custom _ _ _ _ (fun hc => hp hc.1)]
      exact hclamp _ _

/-- Witness for `calculate_delay_clamped_except_custom` at the default
configuration and at a raising custom function. -/
theorem calculate_delay_clamped_except_custom_witness :
    (0 ≤ calculate_delay 2 {} none 0 ∧
      calculate_delay 2 {} none 0 ≤ ({} : RetryConfiguration).max_delay) ∧
    calculate_delay 2 customRaiseCfg none 0 = customRaiseCfg.base_delay := by
  constructor
  · exact (calculate_delay_clamped_except_custom 2 {} none 0 (by decide)).1
      (by decide)
  · exact ((calculate_delay_clamped_except_custom 2 customRaiseCfg none 0
      (by decide)).2 (fun _ _ => .error ()) rfl rfl rfl).1

/-- Witness for `calculate_delay_nonneg_except_custom` at a RANDOM_JITTER
configuration whose pre-clamp value is negative, and at a raising custom
function. -/
theorem calculate_delay_nonneg_except_custom_witness :
    0 ≤ calculate_delay 2
      { policy := .RANDOM_JITTER, base_delay := 1, max_delay := 60,
        jitter_factor := 3 } none 0 ∧
    0 ≤ calculate_delay 2 customRaiseCfg none 0 := by
  constructor
  · exact (calculate_delay_nonneg_except_custom 2
      { policy := .RANDOM_JITTER, base_delay := 1, max_delay := 60,
        jitter_factor := 3 } none 0).1 (by decide)
  · exact (calculate_delay_nonneg_except_custom 2 customRaiseCfg none 0).2
      (by norm_num [customRaiseCfg]) (fun _ _ => .error ()) rfl rfl

/-- C3 counterexample: `__post_init__` does not constrain
`backoff_multiplier`, so `-1` passes validation; at attempt 2 the code
returns `max(0, min(base*(-1)^1, max_delay)) = 0`, not the claimed
`min(max_delay, base*(-1)^1) = -1`. -/
theorem calculate_delay_exponential_negative_multiplier :
    expBackNegCfg.validCtor ∧
    expBackNegCfg.policy = RetryPolicy.EXPONENTIAL_BACKOFF ∧
    calculate_delay 2 expBackNegCfg none 0 ≠
      min expBackNegCfg.max_delay
        (expBackNegCfg.base_delay * expBackNegCfg.backoff_multiplier ^ (2 - 1)) := by
  refine ⟨by decide, rfl, ?_⟩
  norm_num [calculate_delay, expBackNegCfg, policyDelay, pymin, pymax, min_def]
  decide

/-- C3 (amended): for every validated ExponentialBackoff configuration
whose `backoff_multiplier` is non-negative (the claim's formula fails for
negative multipliers, which validation does not exclude), the delay at
1-based attempt `n` is `min(max_delay, base_delay * multiplier^(n-1))`,
and it is monotonically non-decreasing in `n` whenever the multiplier is
at least 1. -/
theorem calculate_delay_exponential_formula_monotone
    (config : RetryConfiguration) (last_error le2 : Option PyError) (r r2 : ℚ)
    (hv : config.validCtor) (hp : config.policy = .EXPONENTIAL_BACKOFF)
    (hm : 0 ≤ config.backoff_multiplier) :
    (∀ n : Nat, calculate_delay n config last_error r =
        min config.max_delay
          (config.base_delay * config.backoff_multiplier ^ (n - 1))) ∧
    (1 ≤ config.backoff_multiplier → ∀ n m : Nat, n ≤ m →
        calculate_delay n config last_error r ≤
          calculate_delay m config le2 r2) := by
  obtain ⟨-, hb0, hbm⟩ := hv
  have hm0 : (0 : ℚ) ≤ config.max_delay := hb0.trans hbm
  have hnc : ¬ (config.policy = RetryPolicy.CUSTOM ∧
      config.custom_delay_func.isSome = true) := by
    intro hc
    rw [hp] at hc
    exact absurd hc.1 (by decide)
  have key : ∀ (n : Nat) (le : Option PyError) (rr : ℚ),
      calculate_delay n config le rr =
        min config.max_delay
          (config.base_delay * config.backoff_multiplier ^ (n - 1)) := by
    intro n le rr
    have hraw : 0 ≤ config.base_delay * config.backoff_multiplier ^ (n - 1) :=
      mul_nonneg hb0 (pow_nonneg hm _)
    have hpd : policyDelay n config rr =
        config.base_delay * config.backoff_multiplier ^ (n - 1) := by
      simp [policyDelay, hp]
    rw [calculate_delay_of_not_custom _ _ _ _ hnc, pymax_eq_max, pymin_eq_min,
      hpd, max_eq_right (le_min hraw hm0), min_comm]
  refine ⟨fun n => key n last_error r, fun h1 n m hnm => ?_⟩
  rw [key n last_error r, key m le2 r2]
  exact min_le_min (le_refl _)
    (mul_le_mul_of_nonneg_left
      (pow_le_pow_right₀ h1 (Nat.sub_le_sub_right hnm 1)) hb0)

/-- Witness for `calculate_delay_exponential_formula_monotone` at the
default configuration (multiplier 2). -/
theorem calculate_delay_exponential_formula_monotone_witness :
    calculate_delay 2 {} none 0 =
      min ({} : RetryConfiguration).max_delay
        (({} : RetryConfiguration).base_delay *
          ({} : RetryConfiguration).backoff_multiplier ^ (2 - 1)) ∧
    calculate_delay 1 {} none 0 ≤ calculate_delay 2 {} none 0 := by
  constructor
  · exact (calculate_delay_exponential_formula_monotone {} none none 0 0
      (by decide) rfl (by norm_num)).1 2
  · exact (calculate_delay_exponential_formula_monotone {} none none 0 0
      (by decide) rfl (by norm_num)).2 (by norm_num) 1 2 (by norm_num)

/-- C6: `should_retry` returns `false` once `attempt_number` reaches
`max_attempts`, whatever the error and whatever the custom checker would
return; and it returns `false` at every attempt number at which a
supplied custom checker returns `false`. -/
theorem should_retry_max_attempts_and_checker_false
    (attempt_number : Nat) (config : RetryConfiguration) (error : PyError)
    (error_checker : Option (PyError → Except Unit Bool)) :
    (config.max_attempts ≤ attempt_number →
      should_retry attempt_number config error error_checker = false) ∧
    (∀ ck, error_checker = some ck → ck error = .ok false →
      should_retry attempt_number config error error_checker = false) := by
  constructor
  · intro h
    simp [should_retry, h]
  · rintro ck rfl hck
    unfold should_retry
    split
    · rfl
    · simp [hck]

/-- Witness for `should_retry_max_attempts_and_checker_false`:
the default configuration has `max_attempts = 3`. -/
theorem should_retry_max_attempts_and_checker_false_witness :
    should_retry 3 {} { msg := "e" } none = false ∧
    should_retry 1 {} { msg := "e" } (some fun _ => Except.ok false) = false := by
  constructor
  · exact (should_retry_max_attempts_and_checker_false 3 {} { msg := "e" }
      none).1 (by decide)
  · exact (should_retry_max_attempts_and_checker_false 1 {} { msg := "e" }
      (some fun _ => Except.ok false)).2 (fun _ => Except.ok false) rfl rfl

/-- A list of attempts that all failed has no successful last element. -/
theorem no_success_getLast (attempts : List RetryAttempt)
    (hall : ∀ a ∈ attempts, a.success = false) :
    ¬ ∃ a, attempts.getLast? = some a ∧ a.success = true := by
  rintro ⟨a, ha, hs⟩
  rw [hall a (List.mem_of_getLast?_eq_some ha)] at hs
  exact Bool.false_ne_true hs

/-- Appending an attempt numbered `length + 1` preserves the
`1, 2, ..., k` numbering. -/
theorem numbered_append (attempts : List RetryAttempt) (a : RetryAttempt)
    (hnum : attempts.map RetryAttempt.attempt_number =
      List.range' 1 attempts.length)
    (ha : a.attempt_number = attempts.length + 1) :
    (attempts ++ [a]).map RetryAttempt.attempt_number =
      List.range' 1 (attempts ++ [a]).length := by
  rw [List.map_append, List.length_append, List.map_cons, List.map_nil,
    hnum, ha, List.length_singleton, List.range'_1_concat,
    Nat.add_comm 1 attempts.length]

/-- Appending a failed attempt preserves all-failed. -/
theorem allFailed_append (attempts : List RetryAttempt) (a : RetryAttempt)
    (hall : ∀ x ∈ attempts, x.success = false) (ha : a.success = false) :
    ∀ x ∈ attempts ++ [a], x.success = false := by
  intro x hx
  rcases List.mem_append.mp hx with hx | hx
  · exact hall x hx
  · rcases List.mem_singleton.mp hx with rfl
    exact ha

/-- Loop invariant of `retryLoop`: starting from an all-failed,
consecutively numbered prefix whose next attempt number is
`length + 1`, the loop returns `SUCCESS` exactly when the last recorded
attempt succeeded, and its attempt list stays numbered `1, ..., k`. -/
theorem retryLoop_invariant {T : Type} (operation : Nat → Except PyError T)
    (config : RetryConfiguration)
    (error_checker : Option (PyError → Except Unit Bool))
    (abort_checker : Option (Nat → Except PyError Bool))
    (elapsed rand : Nat → ℚ) (remaining : Nat) :
    ∀ (attempt_num : Nat) (attempts : List RetryAttempt)
      (last_error : Option PyError),
      (∀ a ∈ attempts, a.success = false) →
      attempts.map RetryAttempt.attempt_number =
        List.range' 1 attempts.length →
      attempt_num = attempts.length + 1 →
      (((retryLoop operation config error_checker abort_checker elapsed rand
            remaining attempt_num attempts last_error).result = .SUCCESS) ↔
          ∃ a, (retryLoop operation config error_checker abort_checker elapsed
              rand remaining attempt_num attempts last_error).attempts.getLast?
              = some a ∧ a.success = true) ∧
        (retryLoop operation config error_checker abort_checker elapsed rand
            remaining attempt_num attempts last_error).attempts.map
            RetryAttempt.attempt_number =
          List.range' 1 (retryLoop operation config error_checker abort_checker
            elapsed rand remaining attempt_num attempts
            last_error).attempts.length := by
  induction remaining with
  | zero =>
      intro n attempts le hall hnum hn
      refine ⟨⟨fun h => absurd h (by simp [retryLoop]), fun h => ?_⟩, ?_⟩
      · exact absurd h (by simpa [retryLoop] using no_success_getLast attempts hall)
      · simpa [retryLoop] using hnum
  | succ remaining ih =>
      intro n attempts le hall hnum hn
      simp only [retryLoop]
      cases habort : abortSignal abort_checker n with
      | error e =>
          refine ⟨⟨fun h => absurd h (by simp), fun h => ?_⟩, by simpa using hnum⟩
          exact absurd h (by simpa using no_success_getLast attempts hall)
      | ok b =>
          cases b with
          | true =>
              refine ⟨⟨fun h => absurd h (by simp), fun h => ?_⟩, by simpa using hnum⟩
              exact absurd h (by simpa using no_success_getLast attempts hall)
          | false =>
              by_cases hto : timeoutExpired config (elapsed n) = true
              · simp only [hto, if_true]
                refine ⟨⟨fun h => absurd h (by simp), fun h => ?_⟩, by simpa using hnum⟩
                exact absurd h (by simpa using no_success_getLast attempts hall)
              · rw [Bool.not_eq_true] at hto
                simp only [hto, Bool.false_eq_true, if_false]
                cases hop : operation n with
                | ok v =>
                    constructor
                    · simp [List.getLast?_concat]
                    · exact numbered_append attempts _ hnum (by simpa using hn)
                | error e =>
                    by_cases hbr : n < config.max_attempts ∧
                        should_retry n config e error_checker = false
                    · simp only [if_pos hbr]
                      refine ⟨⟨fun h => absurd h (by simp), fun h => ?_⟩,
                        numbered_append attempts _ hnum (by simpa using hn)⟩
                      exact absurd h
                        (no_success_getLast _ (allFailed_append attempts _ hall rfl))
                    · simp only [if_neg hbr]
                      exact ih (n + 1) _ (some e)
                        (allFailed_append attempts _ hall rfl)
                        (numbered_append attempts _ hnum (by simpa using hn))
                        (by simp [hn])

/-- C4: for every operation, configuration, error checker and abort
checker (and every timing and randomness), the result of
`execute_with_retry` is `SUCCESS` exactly when the attempt list is
non-empty and its last attempt has `success = true`, and the attempt
numbers are exactly `1, 2, ..., k` with no gaps. -/
theorem execute_with_retry_success_iff_last_attempt {T : Type}
    (operation : Nat → Except PyError T) (config : RetryConfiguration)
    (error_checker : Option (PyError → Except Unit Bool))
    (abort_checker : Option (Nat → Except PyError Bool))
    (elapsed rand : Nat → ℚ) :
    ((execute_with_retry operation config error_checker abort_checker elapsed
        rand).success = true ↔
      ∃ a, (execute_with_retry operation config error_checker abort_checker
          elapsed rand).attempts.getLast? = some a ∧ a.success = true) ∧
    (execute_with_retry operation config error_checker abort_checker elapsed
        rand).attempts.map RetryAttempt.attempt_number =
      List.range' 1 (execute_with_retry operation config error_checker
        abort_checker elapsed rand).attempts.length := by
  have h := retryLoop_invariant operation config error_checker abort_checker
    elapsed rand config.max_attempts 1 [] none (by simp) (by simp) (by simp)
  unfold execute_with_retry
  refine ⟨?_, h.2⟩
  rw [RetryExecutionResult.success, decide_eq_true_iff]
  exact h.1

/-- With `timeout = 0` the truthiness guard `if config.timeout:` is
false, so the deadline comparison never runs. -/
theorem timeoutExpired_of_zero (config : RetryConfiguration) (x : ℚ)
    (ht : config.timeout = some 0) : timeoutExpired config x = false := by
  simp [timeoutExpired, ht]

/-- The async loop never produces `TIMEOUT` when `timeout = 0`. -/
theorem retryLoop_zero_timeout {T : Type} (operation : Nat → Except PyError T)
    (config : RetryConfiguration)
    (error_checker : Option (PyError → Except Unit Bool))
    (abort_checker : Option (Nat → Except PyError Bool))
    (elapsed rand : Nat → ℚ) (ht : config.timeout = some 0) :
    ∀ (remaining attempt_num : Nat) (attempts : List RetryAttempt)
      (last_error : Option PyError),
      (retryLoop operation config error_checker abort_checker elapsed rand
        remaining attempt_num attempts last_error).result ≠ .TIMEOUT := by
  intro remaining
  induction remaining with
  | zero =>
      intro n attempts le
      simp [retryLoop]
  | succ remaining ih =>
      intro n attempts le
      simp only [retryLoop]
      cases habort : abortSignal abort_checker n with
      | error e => simp
      | ok b =>
          cases b with
          | true => simp
          | false =>
              rw [timeoutExpired_of_zero config _ ht]
              simp only [Bool.false_eq_true, if_false]
              cases hop : operation n with
              | ok v => simp
              | error e =>
                  by_cases hbr : n < config.max_attempts ∧
                      should_retry n config e error_checker = false
                  · simp [if_pos hbr]
                  · simp only [if_neg hbr]
                    exact ih (n + 1) _ (some e)

/-- The sync loop never produces `TIMEOUT` when `timeout = 0`. -/
theorem retryLoopSync_zero_timeout {T : Type}
    (operation : Nat → Except PyError T) (config : RetryConfiguration)
    (error_checker : Option (PyError → Except Unit Bool))
    (elapsed rand : Nat → ℚ) (ht : config.timeout = some 0) :
    ∀ (remaining attempt_num : Nat) (attempts : List RetryAttempt)
      (last_error : Option PyError),
      (retryLoopSync operation config error_checker elapsed rand
        remaining attempt_num attempts last_error).result ≠ .TIMEOUT := by
  intro remaining
  induction remaining with
  | zero =>
      intro n attempts le
      simp [retryLoopSync]
  | succ remaining ih =>
      intro n attempts le
      simp only [retryLoopSync]
      rw [timeoutExpired_of_zero config _ ht]
      simp only [Bool.false_eq_true, if_false]
      cases hop : operation n with
      | ok v => simp
      | error e =>
          by_cases hbr : n < config.max_attempts ∧
              should_retry n config e error_checker = false
          · simp [if_pos hbr]
          · simp only [if_neg hbr]
            exact ih (n + 1) _ (some e)

/-- C10: with `timeout` equal to `0`, neither `execute_with_retry` nor
`execute_with_retry_sync` ever returns a `TIMEOUT` result — the zero
value makes `if config.timeout:` falsy, disabling the deadline check
entirely instead of expiring immediately. -/
theorem zero_timeout_never_times_out {T : Type}
    (operation : Nat → Except PyError T) (config : RetryConfiguration)
    (error_checker : Option (PyError → Except Unit Bool))
    (abort_checker : Option (Nat → Except PyError Bool))
    (elapsed rand elapsed2 rand2 : Nat → ℚ)
    (ht : config.timeout = some 0) :
    (execute_with_retry operation config error_checker abort_checker elapsed
      rand).result ≠ .TIMEOUT ∧
    (execute_with_retry_sync operation config error_checker elapsed2
      rand2).result ≠ .TIMEOUT :=
  ⟨retryLoop_zero_timeout operation config error_checker abort_checker
      elapsed rand ht config.max_attempts 1 [] none,
    retryLoopSync_zero_timeout operation config error_checker elapsed2
      rand2 ht config.max_attempts 1 [] none⟩

/-- Witness for `zero_timeout_never_times_out` on a concrete run whose
elapsed clock is far beyond the (zero) deadline. -/
theorem zero_timeout_never_times_out_witness :
    (execute_with_retry opAlwaysFail zeroTimeoutCfg none none
      (fun _ => 1000) (fun _ => 0)).result ≠ .TIMEOUT ∧
    (execute_with_retry_sync opAlwaysFail zeroTimeoutCfg none
      (fun _ => 1000) (fun _ => 0)).result ≠ .TIMEOUT :=
  zero_timeout_never_times_out opAlwaysFail zeroTimeoutCfg none none
    (fun _ => 1000) (fun _ => 0) (fun _ => 1000) (fun _ => 0) rfl

/-- With no abort checker, the async loop body coincides step by step
with the sync loop body. -/
theorem retryLoop_no_abort_eq_sync {T : Type}
    (operation : Nat → Except PyError T) (config : RetryConfiguration)
    (error_checker : Option (PyError → Except Unit Bool))
    (elapsed rand : Nat → ℚ) :
    ∀ (remaining attempt_num : Nat) (attempts : List RetryAttempt)
      (last_error : Option PyError),
      retryLoop operation config error_checker none elapsed rand
          remaining attempt_num attempts last_error =
        retryLoopSync operation config error_checker elapsed rand
          remaining attempt_num attempts last_error := by
  intro remaining
  induction remaining with
  | zero =>
      intro n attempts le
      rfl
  | succ remaining ih =>
      intro n attempts le
      simp only [retryLoop, retryLoopSync, abortSignal]
      by_cases hto : timeoutExpired config (elapsed n) = true
      · simp only [hto, if_true]
      · rw [Bool.not_eq_true] at hto
        simp only [hto, Bool.false_eq_true, if_false]
        cases hop : operation n with
        | ok v => rfl
        | error e =>
            by_cases hbr : n < config.max_attempts ∧
                should_retry n config e error_checker = false
            · simp only [if_pos hbr]
            · simp only [if_neg hbr]
              exact ih (n + 1) _ (some e)

/-- C9 counterexample: `execute_with_retry_sync` accepts no abort
checker, so with an abort checker that fires immediately the async
variant aborts with no attempts while the sync variant runs all attempts
to failure — the result variants differ. -/
theorem sync_async_differ_with_abort_checker :
    (execute_with_retry opAlwaysFail
        { max_attempts := 2, policy := .FIXED_DELAY, base_delay := 0,
          max_delay := 0 } none (some fun _ => Except.ok true)
        (fun _ => 0) (fun _ => 0)).result ≠
      (execute_with_retry_sync opAlwaysFail
        { max_attempts := 2, policy := .FIXED_DELAY, base_delay := 0,
          max_delay := 0 } none (fun _ => 0) (fun _ => 0)).result := by
  decide

/-- C9 (amended): when no abort checker is supplied (the sync variant's
signature has none), `execute_with_retry` and `execute_with_retry_sync`
return identical results for the same operation, configuration, error
checker, timing and randomness — same variant, same attempt list, same
final error, the only runtime difference being blocking sleep instead of
suspension. -/
theorem execute_with_retry_sync_equiv_no_abort {T : Type}
    (operation : Nat → Except PyError T) (config : RetryConfiguration)
    (error_checker : Option (PyError → Except Unit Bool))
    (elapsed rand : Nat → ℚ) :
    execute_with_retry operation config error_checker none elapsed rand =
      execute_with_retry_sync operation config error_checker elapsed rand :=
  retryLoop_no_abort_eq_sync operation config error_checker elapsed rand
    config.max_attempts 1 [] none

/-- C8: if the abort checker passes at the boundary before attempt 1,
attempt 1 runs and fails with a retryable error, and the abort checker
fires at the boundary before attempt 2, the run is `ABORTED` with exactly
the one recorded attempt — and this holds for every elapsed-time stream
at boundary 2, every delay randomness and every attempt-2 operation
outcome, because the abort poll precedes the timeout check, the delay and
the operation call. -/
theorem execute_with_retry_abort_before_attempt_two {T : Type}
    (operation : Nat → Except PyError T) (config : RetryConfiguration)
    (error_checker : Option (PyError → Except Unit Bool))
    (ck : Nat → Except PyError Bool) (elapsed rand : Nat → ℚ) (e : PyError)
    (hmax : 2 ≤ config.max_attempts)
    (h1 : ck 1 = .ok false) (h2 : ck 2 = .ok true)
    (hto : timeoutExpired config (elapsed 1) = false)
    (hop : operation 1 = .error e)
    (hsr : should_retry 1 config e error_checker = true) :
    (execute_with_retry operation config error_checker (some ck) elapsed
      rand).result = .ABORTED ∧
    (execute_with_retry operation config error_checker (some ck) elapsed
      rand).attempts.map RetryAttempt.attempt_number = [1] := by
  obtain ⟨k, hk⟩ := Nat.exists_eq_add_of_le hmax
  have hk' : config.max_attempts = (k + 1) + 1 := by omega
  unfold execute_with_retry
  rw [hk']
  simp only [retryLoop, abortSignal, h1, hto, Bool.false_eq_true, if_false,
    hop, h2]
  rw [if_neg]
  · simp [abortSignal, h2]
  · rintro ⟨-, hfalse⟩
    rw [hsr] at hfalse
    exact Bool.noConfusion hfalse

/-- Witness for `execute_with_retry_abort_before_attempt_two`: a
concrete run that fails once, then aborts at the second boundary even
though the deadline has long expired there. -/
theorem execute_with_retry_abort_before_attempt_two_witness :
    (execute_with_retry opAlwaysFail abortWitCfg none (some abortFromTwo)
      elapsedLateTwo (fun _ => 0)).result = .ABORTED ∧
    (execute_with_retry opAlwaysFail abortWitCfg none (some abortFromTwo)
      elapsedLateTwo (fun _ => 0)).attempts.map
      RetryAttempt.attempt_number = [1] :=
  execute_with_retry_abort_before_attempt_two opAlwaysFail abortWitCfg none
    abortFromTwo elapsedLateTwo (fun _ => 0) { msg := "boom" }
    (by decide) rfl rfl (by decide) rfl (by decide)

end RetryStrategy

namespace ProcessEngine

/-- C2 counterexample: an exception while sending the graceful signal
does not fall through to the next escalation stage — the outer
`except Exception` returns `False` at once, so the overall value is
`false` even though the OS-level kill step never failed (it was never
reached). -/
theorem terminate_gracefully_false_without_os_kill_failure :
    terminate_gracefully termRaiseBehavior = false ∧
    termRaiseBehavior.osKillRaises = none :=
  ⟨rfl, rfl⟩

/-- C2 (amended): a `TimeoutError` while waiting after the graceful or
forceful signal is treated as stage failure and falls through to the
next escalation stage; but an exception raised while *sending* either
signal is caught by the function's outer handler and yields `false`
immediately, without escalation.  When both signal sends succeed, the
overall value is `false` exactly when the process had not already
exited, both waits timed out, and the OS-level kill raised. -/
theorem terminate_gracefully_escalation (p : TermBehavior) :
    (p.returncode = none → p.terminateRaises.isSome = true →
      terminate_gracefully p = false) ∧
    (p.returncode = none → p.terminateRaises = none →
      p.waitTermTimesOut = true → p.killRaises.isSome = true →
      terminate_gracefully p = false) ∧
    (p.terminateRaises = none → p.killRaises = none →
      (terminate_gracefully p = false ↔
        p.returncode = none ∧ p.waitTermTimesOut = true ∧
        p.waitKillTimesOut = true ∧ p.osKillRaises.isSome = true)) := by
  refine ⟨?_, ?_, ?_⟩
  · intro h0 hterm
    obtain ⟨s, hs⟩ := Option.isSome_iff_exists.mp hterm
    simp [terminate_gracefully, h0, hs]
  · intro h0 hterm hwt hkill
    obtain ⟨s, hs⟩ := Option.isSome_iff_exists.mp hkill
    simp [terminate_gracefully, h0, hterm, hwt, hs]
  · intro hterm hkill
    cases h0 : p.returncode with
    | some v => simp [terminate_gracefully, h0]
    | none =>
        cases hwt : p.waitTermTimesOut <;>
          cases hwk : p.waitKillTimesOut <;>
            cases hos : p.osKillRaises <;>
              simp [terminate_gracefully, h0, hterm, hkill, hwt, hwk, hos]

/-- Witness for `terminate_gracefully_escalation`: a raising
`terminate()` yields `false` at once, a raising `kill()` after the
graceful wait timed out yields `false` at once, and with clean signal
sends the value is `false` when both waits time out and the OS-level
kill raises. -/
theorem terminate_gracefully_escalation_witness :
    terminate_gracefully termRaiseBehavior = false ∧
    terminate_gracefully killRaiseBehavior = false ∧
    terminate_gracefully osKillFailBehavior = false := by
  refine ⟨?_, ?_, ?_⟩
  · exact (terminate_gracefully_escalation termRaiseBehavior).1 rfl rfl
  · exact (terminate_gracefully_escalation killRaiseBehavior).2.1 rfl rfl rfl rfl
  · exact ((terminate_gracefully_escalation osKillFailBehavior).2.2 rfl rfl).mpr
      ⟨rfl, rfl, rfl, rfl⟩

/-- C5: whichever modelled step of `execute_process` raises first —
spawning the process, starting monitoring, or waiting for completion —
the call returns (rather than propagates) a `FAILED` result whose
`stderr` is the exception text and whose metadata records it under
`"exception"`. -/
theorem execute_process_exception_to_failed_result
    (request : ProcessRequest) (beh : ProcBehavior) (e : String) :
    (beh.spawnResult = .error e →
      (execute_process request beh).state = ProcessState.FAILED ∧
      (execute_process request beh).stderr = e ∧
      (execute_process request beh).metadata = [("exception", some e)]) ∧
    (beh.spawnResult = .ok () → beh.startMonitoringRaises = some e →
      (execute_process request beh).state = ProcessState.FAILED ∧
      (execute_process request beh).stderr = e ∧
      (execute_process request beh).metadata = [("exception", some e)]) ∧
    (beh.spawnResult = .ok () → beh.startMonitoringRaises = none →
      beh.waitOutcome = .raises e →
      (execute_process request beh).state = ProcessState.FAILED ∧
      (execute_process request beh).stderr = e ∧
      (execute_process request beh).metadata = [("exception", some e)]) := by
  refine ⟨fun hs => ?_, fun hs hm => ?_, fun hs hm hw => ?_⟩
  · simp [execute_process, hs, failedExcResult]
  · simp [execute_process, hs, hm, failedExcResult]
  · simp [execute_process, hs, hm, hw, failedExcResult]

/-- Witness for `execute_process_exception_to_failed_result` at the
three concrete raise points. -/
theorem execute_process_exception_to_failed_result_witness :
    (execute_process witRequest spawnFailBeh).state = ProcessState.FAILED ∧
    (execute_process witRequest monitorFailBeh).stderr = "monitor failed" ∧
    (execute_process witRequest waitFailBeh).metadata =
      [("exception", some "wait failed")] := by
  refine ⟨?_, ?_, ?_⟩
  · exact ((execute_process_exception_to_failed_result witRequest spawnFailBeh
      "spawn failed").1 rfl).1
  · exact ((execute_process_exception_to_failed_result witRequest
      monitorFailBeh "monitor failed").2.1 rfl rfl).2.1
  · exact ((execute_process_exception_to_failed_result witRequest waitFailBeh
      "wait failed").2.2 rfl rfl rfl).2.2

end ProcessEngine
